import Mathlib

/-!
# Verification of the marginfi-meteora farmer engine

Shallow embedding of the "Oracle-Aware Margin Risk & Execution Engine"
(`src/state.rs`, `src/bot.rs`, `src/utils/transaction.rs`) and proofs about it.

Modelling conventions:
* `I80F48` fixed-point values are modelled as exact rationals (`ℚ`).  The
  claims under scrutiny concern control flow, field updates, aggregation
  operators, guards and order relations, none of which depend on the 48-bit
  fractional rounding of the `fixed` crate; overflow of the 128-bit carrier
  (surfaced by `checked_*` in the source) is outside every claim examined and
  is not modelled, so `checked_add`/`checked_sub`/`checked_mul` always
  succeed in the model.
* A Rust operation that can panic (`unwrap`, division by an `I80F48` zero,
  `unreachable!`) is modelled as an `Option`/`Except` failure (`none`), so
  that totality claims are decidable in the model.
* `Pubkey` is an opaque identifier, modelled as `ℕ`.
* The scaling tables `EXP_10` / `EXP_10_I80F48` of the marginfi crate are
  modelled as exact powers of ten; their finite length (an out-of-bounds
  index panics) is not reached by any input considered here.
-/

/-- Opaque Solana account address. -/
abbrev Pubkey := ℕ

/-- marginfi scaling table `EXP_10` (integer powers of ten). -/
def EXP_10 (i : ℕ) : ℤ := 10 ^ i

/-- marginfi scaling table `EXP_10_I80F48` (fixed-point powers of ten). -/
def EXP_10_I80F48 (i : ℕ) : ℚ := 10 ^ i

/-- marginfi constant `CONF_INTERVAL_MULTIPLE = 2.12`: the confidence
widening multiplier applied uniformly to oracle confidence values. -/
def CONF_INTERVAL_MULTIPLE : ℚ := 212 / 100

/-- `pyth_price_components_to_i80f48` from `src/state.rs`: scale a mantissa by
`10 ^ exponent` using the exact scaling table.  The source returns a decode
error when `checked_div` / `checked_mul` overflow; in the exact model the
operations always succeed. -/
def pyth_price_components_to_i80f48 (price : ℚ) (exponent : ℤ) : Option ℚ :=
  let scaling_factor := EXP_10_I80F48 exponent.natAbs
  if exponent = 0 then some price
  else if exponent < 0 then some (price / scaling_factor)
  else some (price * scaling_factor)

/-- `pyth_sdk_solana::Price`: mantissa (`i64`), confidence (`u64`), exponent
(`i32`). -/
structure PythPrice where
  price : ℤ
  conf : ℕ
  expo : ℤ
  deriving DecidableEq

/-- `PythPriceFeed` from `src/state.rs`. -/
structure PythPriceFeed where
  last_update_slot : ℕ
  price : PythPrice
  deriving DecidableEq

/-- `PythPriceFeed::get_price`. -/
def PythPriceFeed.get_price (self : PythPriceFeed) : Option ℚ :=
  pyth_price_components_to_i80f48 (self.price.price : ℚ) self.price.expo

/-- `PythPriceFeed::get_confidence_interval`: the scaled confidence mantissa
times `CONF_INTERVAL_MULTIPLE`.  (The source carries a commented-out
non-negativity assertion; nothing is enforced.) -/
def PythPriceFeed.get_confidence_interval (self : PythPriceFeed) : Option ℚ := do
  let c ← pyth_price_components_to_i80f48 (self.price.conf : ℚ) self.price.expo
  some (c * CONF_INTERVAL_MULTIPLE)

/-- `PythPriceFeed::get_price_range`: `(price - conf, price + conf)`. -/
def PythPriceFeed.get_price_range (self : PythPriceFeed) : Option (ℚ × ℚ) := do
  let base_price ← self.get_price
  let price_range ← self.get_confidence_interval
  some (base_price - price_range, base_price + price_range)

/-- `switchboard_v2::SwitchboardDecimal`: `mantissa : i128`, `scale : u32`. -/
structure SwitchboardDecimal where
  mantissa : ℤ
  scale : ℕ
  deriving DecidableEq

/-- `switchboard_v2::AggregatorResolutionMode`. -/
inductive AggregatorResolutionMode where
  | ModeRoundResolution
  | ModeSlidingResolution
  deriving DecidableEq

/-- `fit_scale_switchboard_decimal` from `src/state.rs`: truncate the mantissa
(Rust `i128` division truncates toward zero) so the scale fits the bound. -/
def fit_scale_switchboard_decimal (decimal : SwitchboardDecimal) (scale : ℕ) :
    Option SwitchboardDecimal :=
  if decimal.scale ≤ scale then some decimal
  else
    let scale_diff := decimal.scale - scale
    some ⟨decimal.mantissa.tdiv (EXP_10 scale_diff), scale⟩

/-- `swithcboard_decimal_to_i80f48` from `src/state.rs` (source spelling):
rescale to at most 20 decimal places, then divide exactly. -/
def swithcboard_decimal_to_i80f48 (decimal : SwitchboardDecimal) : Option ℚ := do
  let decimal ← fit_scale_switchboard_decimal decimal 20
  some ((decimal.mantissa : ℚ) / EXP_10_I80F48 decimal.scale)

/-- `SwitchboardPriceFeed` from `src/state.rs`. -/
structure SwitchboardPriceFeed where
  last_update_ts : ℤ
  resolution_mode : AggregatorResolutionMode
  latest_confirmed_round_result : SwitchboardDecimal
  latest_confirmed_round_num_success : ℕ
  latest_confirmed_round_std_deviation : SwitchboardDecimal
  min_oracle_results : ℕ
  deriving DecidableEq

/-- `SwitchboardPriceFeed::get_result`: sliding resolution bypasses the
minimum-participant check; otherwise fail when too few oracles reported. -/
def SwitchboardPriceFeed.get_result (self : SwitchboardPriceFeed) :
    Option SwitchboardDecimal :=
  if self.resolution_mode = AggregatorResolutionMode.ModeSlidingResolution then
    some self.latest_confirmed_round_result
  else if self.latest_confirmed_round_num_success < self.min_oracle_results then
    none
  else some self.latest_confirmed_round_result

/-- `SwitchboardPriceFeed::get_price`. -/
def SwitchboardPriceFeed.get_price (self : SwitchboardPriceFeed) : Option ℚ := do
  let sw_decimal ← self.get_result
  swithcboard_decimal_to_i80f48 sw_decimal

/-- `SwitchboardPriceFeed::get_confidence_interval`: scaled standard deviation
times `CONF_INTERVAL_MULTIPLE`. -/
def SwitchboardPriceFeed.get_confidence_interval (self : SwitchboardPriceFeed) :
    Option ℚ := do
  let std_div ← swithcboard_decimal_to_i80f48 self.latest_confirmed_round_std_deviation
  some (std_div * CONF_INTERVAL_MULTIPLE)

/-- `SwitchboardPriceFeed::get_price_range`: `(price - conf, price + conf)`. -/
def SwitchboardPriceFeed.get_price_range (self : SwitchboardPriceFeed) :
    Option (ℚ × ℚ) := do
  let base_price ← self.get_price
  let price_range ← self.get_confidence_interval
  some (base_price - price_range, base_price + price_range)

/-- C9: for either oracle variant, whenever the price and the confidence
interval resolve (the no-overflow hypothesis of the claim) and the confidence
is non-negative, `get_price_range` returns `(price - conf, price + conf)` and
this interval satisfies `low ≤ price ≤ high`. -/
theorem get_price_range_spec :
    (∀ (f : PythPriceFeed) (p c : ℚ),
      f.get_price = some p → f.get_confidence_interval = some c → 0 ≤ c →
        f.get_price_range = some (p - c, p + c) ∧ p - c ≤ p ∧ p ≤ p + c) ∧
    (∀ (f : SwitchboardPriceFeed) (p c : ℚ),
      f.get_price = some p → f.get_confidence_interval = some c → 0 ≤ c →
        f.get_price_range = some (p - c, p + c) ∧ p - c ≤ p ∧ p ≤ p + c) := by
  constructor
  · intro f p c hp hc hnn
    refine ⟨?_, by linarith, by linarith⟩
    simp [PythPriceFeed.get_price_range, hp, hc]
  · intro f p c hp hc hnn
    refine ⟨?_, by linarith, by linarith⟩
    simp [SwitchboardPriceFeed.get_price_range, hp, hc]

/-- Concrete Pyth feed used as the C9 witness: price 100, confidence 2,
exponent 0. -/
def pythFeedW : PythPriceFeed :=
  { last_update_slot := 0, price := { price := 100, conf := 2, expo := 0 } }

/-- Concrete Switchboard feed used as the C9 witness: sliding resolution,
result 5, standard deviation 1. -/
def switchboardFeedW : SwitchboardPriceFeed :=
  { last_update_ts := 0
    resolution_mode := AggregatorResolutionMode.ModeSlidingResolution
    latest_confirmed_round_result := ⟨5, 0⟩
    latest_confirmed_round_num_success := 0
    latest_confirmed_round_std_deviation := ⟨1, 0⟩
    min_oracle_results := 3 }

/-- C9 witness: the price-range theorem instantiated at concrete feeds of both
variants.  Pyth: price 100, confidence `2 * 2.12 = 106/25`; Switchboard:
price 5, confidence `1 * 2.12 = 53/25`. -/
theorem get_price_range_spec_witness :
    (pythFeedW.get_price_range = some (100 - 106 / 25, 100 + 106 / 25) ∧
      (100 : ℚ) - 106 / 25 ≤ 100 ∧ (100 : ℚ) ≤ 100 + 106 / 25) ∧
    (switchboardFeedW.get_price_range = some (5 - 53 / 25, 5 + 53 / 25) ∧
      (5 : ℚ) - 53 / 25 ≤ 5 ∧ (5 : ℚ) ≤ 5 + 53 / 25) := by
  have h1 : pythFeedW.get_price = some 100 := by
    simp [pythFeedW, PythPriceFeed.get_price, pyth_price_components_to_i80f48]
  have h2 : pythFeedW.get_confidence_interval = some (106 / 25) := by
    simp [pythFeedW, PythPriceFeed.get_confidence_interval,
      pyth_price_components_to_i80f48, CONF_INTERVAL_MULTIPLE]
    norm_num
  have h3 : switchboardFeedW.get_price = some 5 := by
    simp [switchboardFeedW, SwitchboardPriceFeed.get_price,
      SwitchboardPriceFeed.get_result, swithcboard_decimal_to_i80f48,
      fit_scale_switchboard_decimal, EXP_10_I80F48]
  have h4 : switchboardFeedW.get_confidence_interval = some (53 / 25) := by
    simp [switchboardFeedW, SwitchboardPriceFeed.get_confidence_interval,
      swithcboard_decimal_to_i80f48, fit_scale_switchboard_decimal,
      EXP_10_I80F48, CONF_INTERVAL_MULTIPLE]
    norm_num
  exact ⟨get_price_range_spec.1 pythFeedW 100 (106 / 25) h1 h2 (by norm_num),
    get_price_range_spec.2 switchboardFeedW 5 (53 / 25) h3 h4 (by norm_num)⟩

/-- `StateUpdate` from `src/state.rs`: one message on the oracle update
channel. -/
inductive StateUpdate where
  | PythOracle (kv : Pubkey × PythPriceFeed)
  | SwitchboardOracle (kv : Pubkey × SwitchboardPriceFeed)

/-- `OraclesState` from `src/state.rs`: the two oracle-cache partitions.  The
`Mutex` wrappers guard concurrent access in the source; the cache contents are
the association lists. -/
structure OraclesState where
  pyth_oracles : List (Pubkey × PythPriceFeed)
  switchboard_oracles : List (Pubkey × SwitchboardPriceFeed)

/-- The upsert performed by the body of `OraclesState::listen_to_updates`:
replace the feed of the first entry with a matching address, else push the new
entry at the end. -/
def upsert_oracle {α : Type} :
    List (Pubkey × α) → Pubkey → α → List (Pubkey × α)
  | [], address, price_feed => [(address, price_feed)]
  | (addr, feed) :: rest, address, price_feed =>
    if addr = address then (addr, price_feed) :: rest
    else (addr, feed) :: upsert_oracle rest address price_feed

/-- One iteration of the `listen_to_updates` receive loop: apply a single
`StateUpdate` to the cache. -/
def OraclesState.apply_update (state : OraclesState) (update : StateUpdate) :
    OraclesState :=
  match update with
  | StateUpdate.PythOracle (address, price_feed) =>
    { state with pyth_oracles := upsert_oracle state.pyth_oracles address price_feed }
  | StateUpdate.SwitchboardOracle (address, price_feed) =>
    { state with
      switchboard_oracles :=
        upsert_oracle state.switchboard_oracles address price_feed }

theorem upsert_oracle_idem {α : Type} (l : List (Pubkey × α)) (a : Pubkey) (f : α) :
    upsert_oracle (upsert_oracle l a f) a f = upsert_oracle l a f := by
  induction l with
  | nil => simp [upsert_oracle]
  | cons hd tl ih =>
    obtain ⟨addr, feed⟩ := hd
    by_cases h : addr = a
    · simp [upsert_oracle, h]
    · simp [upsert_oracle, h, ih]

theorem upsert_oracle_absent {α : Type} (l : List (Pubkey × α)) (a : Pubkey) (f : α)
    (h : ∀ p ∈ l, p.1 ≠ a) : upsert_oracle l a f = l ++ [(a, f)] := by
  induction l with
  | nil => simp [upsert_oracle]
  | cons hd tl ih =>
    obtain ⟨addr, feed⟩ := hd
    have haddr : addr ≠ a := h (addr, feed) (List.mem_cons_self _ _)
    simp only [upsert_oracle, if_neg haddr, List.cons_append, List.cons.injEq,
      true_and]
    exact ih fun p hp => h p (List.mem_cons_of_mem _ hp)

theorem upsert_oracle_present {α : Type} (l1 l2 : List (Pubkey × α))
    (a : Pubkey) (f0 f : α) (h : ∀ p ∈ l1, p.1 ≠ a) :
    upsert_oracle (l1 ++ (a, f0) :: l2) a f = l1 ++ (a, f) :: l2 := by
  induction l1 with
  | nil => simp [upsert_oracle]
  | cons hd tl ih =>
    obtain ⟨addr, feed⟩ := hd
    have haddr : addr ≠ a := h (addr, feed) (List.mem_cons_self _ _)
    simp only [List.cons_append, upsert_oracle, if_neg haddr, List.cons.injEq,
      true_and]
    exact ih fun p hp => h p (List.mem_cons_of_mem _ hp)

/-- C10: the oracle-cache upsert of `listen_to_updates` is idempotent —
applying the same update twice leaves the cache exactly as applying it once —
and it replaces the matching entry's feed when the key is present and appends
a new entry otherwise. -/
theorem apply_update_idempotent :
    (∀ (state : OraclesState) (update : StateUpdate),
      (state.apply_update update).apply_update update = state.apply_update update) ∧
    (∀ {α : Type} (l : List (Pubkey × α)) (a : Pubkey) (f : α),
      (∀ p ∈ l, p.1 ≠ a) → upsert_oracle l a f = l ++ [(a, f)]) ∧
    (∀ {α : Type} (l1 l2 : List (Pubkey × α)) (a : Pubkey) (f0 f : α),
      (∀ p ∈ l1, p.1 ≠ a) →
        upsert_oracle (l1 ++ (a, f0) :: l2) a f = l1 ++ (a, f) :: l2) := by
  refine ⟨?_, fun l a f h => upsert_oracle_absent l a f h,
    fun l1 l2 a f0 f h => upsert_oracle_present l1 l2 a f0 f h⟩
  intro state update
  cases update with
  | PythOracle kv =>
    obtain ⟨address, price_feed⟩ := kv
    simp [OraclesState.apply_update, upsert_oracle_idem]
  | SwitchboardOracle kv =>
    obtain ⟨address, price_feed⟩ := kv
    simp [OraclesState.apply_update, upsert_oracle_idem]

/-- C10 witness: idempotence at a concrete cache and update, plus the
insert-when-absent and replace-when-present behavior on concrete lists of
naturals. -/
theorem apply_update_idempotent_witness :
    ((OraclesState.apply_update
        (OraclesState.apply_update ⟨[], []⟩ (StateUpdate.PythOracle (7, pythFeedW)))
        (StateUpdate.PythOracle (7, pythFeedW))) =
      OraclesState.apply_update ⟨[], []⟩ (StateUpdate.PythOracle (7, pythFeedW)) ∧
    upsert_oracle [((1 : Pubkey), (10 : ℕ))] 2 20 = [(1, 10), (2, 20)] ∧
    upsert_oracle [((1 : Pubkey), (10 : ℕ)), (2, 20)] 2 99 = [(1, 10), (2, 99)]) := by
  refine ⟨apply_update_idempotent.1 ⟨[], []⟩ (StateUpdate.PythOracle (7, pythFeedW)),
    ?_, ?_⟩
  · exact apply_update_idempotent.2.1 [((1 : Pubkey), (10 : ℕ))] 2 20 (by decide)
  · exact apply_update_idempotent.2.2 [((1 : Pubkey), (10 : ℕ))] [] 2 20 99 (by decide)

/-- `marginfi::state::price::OracleSetup` (the variants this engine handles). -/
inductive OracleSetup where
  | PythEma
  | SwitchboardV2
  | NoSetup
  deriving DecidableEq

/-- `MarginfiBank` from `src/state.rs`: snapshot of one lending bank. -/
structure MarginfiBank where
  mint : Pubkey
  mint_decimals : ℕ
  total_asset_value_init_limit : ℕ
  oracle_setup : OracleSetup
  oracle_address : Pubkey
  asset_weight_init : ℚ
  liability_weight_init : ℚ
  asset_share_value : ℚ
  liability_share_value : ℚ
  total_asset_shares : ℚ
  total_liability_shares : ℚ
  optimal_utilization_rate : ℚ
  plateau_interest_rate : ℚ
  max_interest_rate : ℚ
  deriving DecidableEq

/-- `MarginfiBank::get_max_deposit_amount` from `src/state.rs`: zero cap means
uncapped; otherwise the cap in token units is the cap times `10 ^ decimals`,
the already-deposited amount is `asset_share_value * total_asset_shares`, and
the allowed amount is clipped accordingly. -/
def MarginfiBank.get_max_deposit_amount (self : MarginfiBank)
    (deposit_amount : ℚ) : ℚ :=
  let max_deposit_amount : ℚ := (self.total_asset_value_init_limit : ℚ)
  if max_deposit_amount = 0 then deposit_amount
  else
    let max_deposit_amount := max_deposit_amount * EXP_10_I80F48 self.mint_decimals
    let total_deposit_amount := self.asset_share_value * self.total_asset_shares
    if max_deposit_amount ≤ total_deposit_amount then 0
    else min deposit_amount (max_deposit_amount - total_deposit_amount)

/-- `MarginfiBank::get_borrow_rate` from `src/state.rs`.  The source divides
`I80F48` values with the plain `/` operator, which panics on a zero divisor;
each such division is modelled by an explicit zero test returning `none`. -/
def MarginfiBank.get_borrow_rate (self : MarginfiBank) : Option ℚ :=
  if self.total_liability_shares = 0 then some 0
  else if self.total_asset_shares = 0 then none
  else
    let current_utilization := self.total_liability_shares / self.total_asset_shares
    if current_utilization ≤ self.optimal_utilization_rate then
      if self.optimal_utilization_rate = 0 then none
      else some (current_utilization / self.optimal_utilization_rate *
        self.plateau_interest_rate)
    else
      let u := current_utilization - self.optimal_utilization_rate
      let l := 1 - self.optimal_utilization_rate
      if l = 0 then none
      else some (u / l * (self.max_interest_rate - self.plateau_interest_rate) +
        self.plateau_interest_rate)

/-- Closed form of `get_max_deposit_amount` for non-negative requests: shared
helper for the cap-formula and monotonicity proofs. -/
theorem get_max_deposit_amount_eq (bank : MarginfiBank) (deposit_amount : ℚ)
    (h : 0 ≤ deposit_amount) :
    bank.get_max_deposit_amount deposit_amount =
      if bank.total_asset_value_init_limit = 0 then deposit_amount
      else
        min deposit_amount
          (max 0 ((bank.total_asset_value_init_limit : ℚ) *
            EXP_10_I80F48 bank.mint_decimals -
            bank.asset_share_value * bank.total_asset_shares)) := by
  unfold MarginfiBank.get_max_deposit_amount
  by_cases h0 : bank.total_asset_value_init_limit = 0
  · simp [h0]
  · have h0q : ((bank.total_asset_value_init_limit : ℚ)) ≠ 0 := by
      exact_mod_cast h0
    simp only [if_neg h0q, if_neg h0]
    set m := (bank.total_asset_value_init_limit : ℚ) * EXP_10_I80F48 bank.mint_decimals
    set d := bank.asset_share_value * bank.total_asset_shares
    by_cases hle : m ≤ d
    · have hmax : max 0 (m - d) = 0 := max_eq_left (by linarith)
      simp [hle, hmax, min_eq_right h]
    · have hmax : max 0 (m - d) = m - d := max_eq_right (by linarith)
      simp [hle, hmax]

/-- Concrete bank for end-to-end scenario A: cap 1,000,000 token units
(`mint_decimals = 0`), already-deposited value 900,000. -/
def bankScenarioA : MarginfiBank :=
  { mint := 0, mint_decimals := 0, total_asset_value_init_limit := 1000000
    oracle_setup := OracleSetup.PythEma, oracle_address := 0
    asset_weight_init := 1, liability_weight_init := 1
    asset_share_value := 900000, liability_share_value := 1
    total_asset_shares := 1, total_liability_shares := 0
    optimal_utilization_rate := 0, plateau_interest_rate := 0
    max_interest_rate := 0 }

/-- C5: `get_max_deposit_amount` returns the full request when the cap is
zero, and otherwise `min(requested, max(0, cap_in_token_units - deposited))`;
scenario A (cap 1,000,000 token units, deposited 900,000, requested 200,000)
yields 100,000. -/
theorem get_max_deposit_amount_spec :
    (∀ (bank : MarginfiBank) (deposit_amount : ℚ), 0 ≤ deposit_amount →
      bank.get_max_deposit_amount deposit_amount =
        if bank.total_asset_value_init_limit = 0 then deposit_amount
        else
          min deposit_amount
            (max 0 ((bank.total_asset_value_init_limit : ℚ) *
              EXP_10_I80F48 bank.mint_decimals -
              bank.asset_share_value * bank.total_asset_shares))) ∧
    bankScenarioA.get_max_deposit_amount 200000 = 100000 := by
  refine ⟨fun bank deposit_amount h => get_max_deposit_amount_eq bank deposit_amount h, ?_⟩
  have h := get_max_deposit_amount_eq bankScenarioA 200000 (by norm_num)
  rw [h]
  norm_num [bankScenarioA, EXP_10_I80F48]

/-- C5 witness: the cap formula instantiated at scenario A's bank and request. -/
theorem get_max_deposit_amount_spec_witness :
    bankScenarioA.get_max_deposit_amount 200000 =
      (if bankScenarioA.total_asset_value_init_limit = 0 then (200000 : ℚ)
        else
          min 200000
            (max 0 ((bankScenarioA.total_asset_value_init_limit : ℚ) *
              EXP_10_I80F48 bankScenarioA.mint_decimals -
              bankScenarioA.asset_share_value * bankScenarioA.total_asset_shares))) :=
  get_max_deposit_amount_spec.1 bankScenarioA 200000 (by norm_num)

/-- Concrete bank for end-to-end scenario B: utilization `1/2` (liability
shares 1, asset shares 2), optimal utilization `4/5`, plateau rate `1/10`,
max rate `1/2`. -/
def bankScenarioB : MarginfiBank :=
  { mint := 0, mint_decimals := 0, total_asset_value_init_limit := 0
    oracle_setup := OracleSetup.PythEma, oracle_address := 0
    asset_weight_init := 1, liability_weight_init := 1
    asset_share_value := 1, liability_share_value := 1
    total_asset_shares := 2, total_liability_shares := 1
    optimal_utilization_rate := 4 / 5, plateau_interest_rate := 1 / 10
    max_interest_rate := 1 / 2 }

/-- C6: `get_borrow_rate` returns 0 for zero total liability shares; below or
at the optimal utilization point it returns
`utilization / optimal_utilization * plateau_rate` (whenever the divisors are
nonzero, which is exactly when the source's `/` does not panic); scenario B
evaluates to `1/16 = 0.0625`. -/
theorem get_borrow_rate_spec :
    (∀ bank : MarginfiBank, bank.total_liability_shares = 0 →
      bank.get_borrow_rate = some 0) ∧
    (∀ bank : MarginfiBank, bank.total_liability_shares ≠ 0 →
      bank.total_asset_shares ≠ 0 → bank.optimal_utilization_rate ≠ 0 →
      bank.total_liability_shares / bank.total_asset_shares ≤
        bank.optimal_utilization_rate →
      bank.get_borrow_rate =
        some (bank.total_liability_shares / bank.total_asset_shares /
          bank.optimal_utilization_rate * bank.plateau_interest_rate)) ∧
    bankScenarioB.get_borrow_rate = some (1 / 16) := by
  refine ⟨?_, ?_, ?_⟩
  · intro bank h
    simp [MarginfiBank.get_borrow_rate, h]
  · intro bank hliab hassets hopt hutil
    simp [MarginfiBank.get_borrow_rate, hliab, hassets, hopt, hutil]
  · simp only [MarginfiBank.get_borrow_rate, bankScenarioB]
    norm_num

/-- C6 witness: the zero-liability case at a concrete bank (scenario A's bank
has zero liability shares) and the linear segment at scenario B's bank. -/
theorem get_borrow_rate_spec_witness :
    bankScenarioA.get_borrow_rate = some 0 ∧
    bankScenarioB.get_borrow_rate =
      some (bankScenarioB.total_liability_shares / bankScenarioB.total_asset_shares /
        bankScenarioB.optimal_utilization_rate * bankScenarioB.plateau_interest_rate) :=
  ⟨get_borrow_rate_spec.1 bankScenarioA (by norm_num [bankScenarioA]),
    get_borrow_rate_spec.2.1 bankScenarioB (by norm_num [bankScenarioB])
      (by norm_num [bankScenarioB]) (by norm_num [bankScenarioB])
      (by norm_num [bankScenarioB])⟩

/-- Bank with zero total asset shares and nonzero total liability shares: the
divisor of the utilization computation is zero. -/
def bankZeroAssets : MarginfiBank :=
  { bankScenarioB with total_asset_shares := 0, total_liability_shares := 1 }

/-- Bank with zero shares on both sides: caught by the zero-liability early
return. -/
def bankZeroShares : MarginfiBank :=
  { bankScenarioB with total_asset_shares := 0, total_liability_shares := 0 }

/-- C3: evaluation at the failing input.  `get_borrow_rate` is guarded only by
the zero-*liability* early return: with zero total asset shares and nonzero
total liability shares the utilization division `total_liability_shares /
total_asset_shares` has a zero divisor and the source panics (`none` in the
model), while the all-zero bank is saved by the early return. -/
theorem get_borrow_rate_divide_by_zero_unguarded :
    bankZeroAssets.get_borrow_rate = none ∧
    bankZeroShares.get_borrow_rate = some 0 := by
  constructor
  · simp [MarginfiBank.get_borrow_rate, bankZeroAssets, bankScenarioB]
  · simp [MarginfiBank.get_borrow_rate, bankZeroShares, bankScenarioB]

/-- Banks for the C8 counterexample: identical except for the cap (0 versus
1); the already-deposited value 900,000 exceeds the unit cap. -/
def bankCapZero : MarginfiBank :=
  { bankScenarioA with total_asset_value_init_limit := 0 }

/-- The cap-1 twin of `bankCapZero`. -/
def bankCapOne : MarginfiBank :=
  { bankScenarioA with total_asset_value_init_limit := 1 }

/-- C8 counterexample: `get_max_deposit_amount` is not monotone in the cap
across cap 0, because cap 0 means *uncapped*: with every other field equal,
cap 0 allows the full 200,000 request while cap 1 allows 0. -/
theorem get_max_deposit_amount_not_monotone_at_cap_zero :
    bankCapZero.total_asset_value_init_limit ≤ bankCapOne.total_asset_value_init_limit ∧
    bankCapOne = { bankCapZero with total_asset_value_init_limit := 1 } ∧
    bankCapZero.get_max_deposit_amount 200000 = 200000 ∧
    bankCapOne.get_max_deposit_amount 200000 = 0 ∧
    ¬ bankCapZero.get_max_deposit_amount 200000 ≤
        bankCapOne.get_max_deposit_amount 200000 := by
  have h0 : bankCapZero.get_max_deposit_amount 200000 = 200000 := by
    rw [get_max_deposit_amount_eq bankCapZero 200000 (by norm_num)]
    norm_num [bankCapZero, bankScenarioA]
  have h1 : bankCapOne.get_max_deposit_amount 200000 = 0 := by
    rw [get_max_deposit_amount_eq bankCapOne 200000 (by norm_num)]
    norm_num [bankCapOne, bankScenarioA, EXP_10_I80F48]
  refine ⟨by norm_num [bankCapZero, bankCapOne, bankScenarioA], by rfl, h0, h1, ?_⟩
  rw [h0, h1]
  norm_num

/-- C8 as amended: for non-negative requests `get_max_deposit_amount` never
exceeds the request, and it is monotone in the cap over *nonzero* caps
(`1 ≤ c1 ≤ c2`, all other bank fields and the request equal); monotonicity
fails only across the cap-0 (uncapped) sentinel. -/
theorem get_max_deposit_amount_monotone :
    (∀ (bank : MarginfiBank) (deposit_amount : ℚ), 0 ≤ deposit_amount →
      bank.get_max_deposit_amount deposit_amount ≤ deposit_amount) ∧
    (∀ (bank : MarginfiBank) (c1 c2 : ℕ) (deposit_amount : ℚ),
      0 ≤ deposit_amount → 1 ≤ c1 → c1 ≤ c2 →
        ({ bank with total_asset_value_init_limit := c1 }).get_max_deposit_amount
            deposit_amount ≤
          ({ bank with total_asset_value_init_limit := c2 }).get_max_deposit_amount
            deposit_amount) := by
  constructor
  · intro bank deposit_amount h
    rw [get_max_deposit_amount_eq bank deposit_amount h]
    by_cases h0 : bank.total_asset_value_init_limit = 0
    · simp [h0]
    · simp only [if_neg h0]
      exact min_le_left _ _
  · intro bank c1 c2 deposit_amount h h1 h12
    rw [get_max_deposit_amount_eq _ deposit_amount h,
      get_max_deposit_amount_eq _ deposit_amount h]
    have hc1 : c1 ≠ 0 := by omega
    have hc2 : c2 ≠ 0 := by omega
    simp only [if_neg hc1, if_neg hc2]
    refine min_le_min le_rfl (max_le_max le_rfl (sub_le_sub_right ?_ _))
    have hpow : (0 : ℚ) ≤ EXP_10_I80F48 bank.mint_decimals := by
      unfold EXP_10_I80F48; positivity
    have hcast : (c1 : ℚ) ≤ (c2 : ℚ) := by exact_mod_cast h12
    exact mul_le_mul_of_nonneg_right hcast hpow

/-- C8 witness: never-exceeds at scenario A's bank, and cap monotonicity
between caps 1 and 2 on that bank. -/
theorem get_max_deposit_amount_monotone_witness :
    bankScenarioA.get_max_deposit_amount 200000 ≤ 200000 ∧
    ({ bankScenarioA with total_asset_value_init_limit := 1 }).get_max_deposit_amount
        200000 ≤
      ({ bankScenarioA with total_asset_value_init_limit := 2 }).get_max_deposit_amount
        200000 :=
  ⟨get_max_deposit_amount_monotone.1 bankScenarioA 200000 (by norm_num),
    get_max_deposit_amount_monotone.2 bankScenarioA 1 2 200000 (by norm_num)
      (by norm_num) (by norm_num)⟩

/-- The closed dispatch over the two `PriceData` implementations (the source
uses `Box<dyn PriceData>` over exactly these two variants). -/
inductive PriceFeed where
  | pyth (feed : PythPriceFeed)
  | switchboard (feed : SwitchboardPriceFeed)

/-- `PriceData::get_price_range` dispatch. -/
def PriceFeed.get_price_range : PriceFeed → Option (ℚ × ℚ)
  | PriceFeed.pyth feed => feed.get_price_range
  | PriceFeed.switchboard feed => feed.get_price_range

/-- `iter().find(|(address, _)| address == key)` over an oracle partition or
bank list. -/
def find_by_key {α : Type} : List (Pubkey × α) → Pubkey → Option (Pubkey × α)
  | [], _ => none
  | (k, v) :: rest, key => if k = key then some (k, v) else find_by_key rest key

/-- `OraclesState::get_oracle`: typed lookup in the partition selected by the
oracle setup.  `OracleSetup::None` hits `unreachable!` in the source (a
panic), modelled as `none`. -/
def OraclesState.get_oracle (state : OraclesState) (oracle_type : OracleSetup)
    (oracle_address : Pubkey) : Option PriceFeed :=
  match oracle_type with
  | OracleSetup.PythEma =>
    (find_by_key state.pyth_oracles oracle_address).map
      (fun p => PriceFeed.pyth p.2)
  | OracleSetup.SwitchboardV2 =>
    (find_by_key state.switchboard_oracles oracle_address).map
      (fun p => PriceFeed.switchboard p.2)
  | OracleSetup.NoSetup => none

/-- `calc_scaled_amount` from `src/state.rs`. -/
def calc_scaled_amount (amount : ℚ) (weight : Option ℚ) (price : ℚ)
    (scaling_factor : ℚ) : ℚ :=
  let weighted :=
    match weight with
    | some w => amount * w
    | none => amount
  weighted * price / scaling_factor

/-- `MarginfiAccountBalance` from `src/state.rs`. -/
structure MarginfiAccountBalance where
  is_active : Bool
  bank_address : Pubkey
  asset_shares : ℚ
  liability_shares : ℚ
  asset_weight : ℚ
  liabilities_weight : ℚ
  deriving DecidableEq

/-- `MarginfiAccountBalance::new_empty`: inactive zero balance carrying the
bank's configured weights. -/
def MarginfiAccountBalance.new_empty (bank_address : Pubkey)
    (bank : MarginfiBank) : MarginfiAccountBalance :=
  { bank_address := bank_address
    asset_shares := 0
    liability_shares := 0
    is_active := false
    asset_weight := bank.asset_weight_init
    liabilities_weight := bank.liability_weight_init }

/-- `MarginfiAccountBalance::get_amounts`: shares times share value. -/
def MarginfiAccountBalance.get_amounts (self : MarginfiAccountBalance)
    (asset_share_value liab_share_value : ℚ) : ℚ × ℚ :=
  (self.asset_shares * asset_share_value,
    self.liability_shares * liab_share_value)

/-- `MarginfiAccountBalance::get_weighted_amounts` from `src/state.rs`:
inactive balances yield `(0, 0)`; otherwise assets are weighted at the low
price and liabilities at the high price, the deposit-cap haircut is applied to
assets, and both are rescaled by `10 ^ 6`.  (When the haircut divides by
`bank_total_assets` that value strictly exceeds the nonzero cap, so the
divisor is nonzero.) -/
def MarginfiAccountBalance.get_weighted_amounts (self : MarginfiAccountBalance)
    (bank : MarginfiBank) (oracle : PriceFeed) : Option (ℚ × ℚ) :=
  if self.is_active = false then some (0, 0)
  else
    match oracle.get_price_range with
    | none => none
    | some (worst_price, best_price) =>
      let asset_share_value := bank.asset_share_value
      let liability_share_value := bank.liability_share_value
      let amounts := self.get_amounts asset_share_value liability_share_value
      let scaling_factor := EXP_10_I80F48 bank.mint_decimals
      let total_assets :=
        calc_scaled_amount amounts.1 (some self.asset_weight) worst_price
          scaling_factor
      let total_liabilities :=
        calc_scaled_amount amounts.2 (some self.liabilities_weight) best_price
          scaling_factor
      let total_assets :=
        if bank.total_asset_value_init_limit ≠ 0 then
          let bank_total_assets :=
            calc_scaled_amount (bank.total_asset_shares * asset_share_value)
              none worst_price scaling_factor
          let total_asset_value_init_limit :=
            (bank.total_asset_value_init_limit : ℚ)
          if total_asset_value_init_limit < bank_total_assets then
            total_assets * (total_asset_value_init_limit / bank_total_assets)
          else total_assets
        else total_assets
      some (total_assets * EXP_10_I80F48 6, total_liabilities * EXP_10_I80F48 6)

/-- `MarginfiAccountWithBanks` from `src/state.rs`: balances keyed by mint,
banks keyed by bank address. -/
structure MarginfiAccountWithBanks where
  balances : List (Pubkey × MarginfiAccountBalance)
  banks : List (Pubkey × MarginfiBank)
  deriving DecidableEq

/-- `MarginfiAccountWithBanks::get_bank_by_mint`:
`iter().find(|(_, bank)| bank.mint == mint)`. -/
def find_bank_by_mint : List (Pubkey × MarginfiBank) → Pubkey →
    Option (Pubkey × MarginfiBank)
  | [], _ => none
  | (addr, bank) :: rest, mint =>
    if bank.mint = mint then some (addr, bank) else find_bank_by_mint rest mint

/-- `balances.iter().position(|(m, _)| m == mint).is_some()`. -/
def has_balance_for_mint : List (Pubkey × MarginfiAccountBalance) → Pubkey → Bool
  | [], _ => false
  | (m, _) :: rest, mint =>
    if m = mint then true else has_balance_for_mint rest mint

/-- Mutation of the balance found by
`position(|(m, _)| m == mint)` (first match). -/
def update_balance_for_mint (f : MarginfiAccountBalance → MarginfiAccountBalance) :
    List (Pubkey × MarginfiAccountBalance) → Pubkey →
      List (Pubkey × MarginfiAccountBalance)
  | [], _ => []
  | (m, b) :: rest, mint =>
    if m = mint then (m, f b) :: rest
    else (m, b) :: update_balance_for_mint f rest mint

/-- `MarginfiAccountWithBanks::deposit` from `src/state.rs`: token amount to
asset shares via the bank's asset share value, added to the matching balance
(created active if absent).  The `unwrap` on the bank lookup and the `I80F48`
division's zero-divisor panic are modelled as `none`. -/
def MarginfiAccountWithBanks.deposit (self : MarginfiAccountWithBanks)
    (amount : ℚ) (mint : Pubkey) : Option MarginfiAccountWithBanks :=
  match find_bank_by_mint self.banks mint with
  | none => none
  | some (bank_address, bank) =>
    if bank.asset_share_value = 0 then none
    else
      let asset_shares := amount / bank.asset_share_value
      if has_balance_for_mint self.balances mint then
        some { self with
          balances :=
            update_balance_for_mint
              (fun balance =>
                { balance with asset_shares := balance.asset_shares + asset_shares })
              self.balances mint }
      else
        let balance := MarginfiAccountBalance.new_empty bank_address bank
        some { self with
          balances :=
            self.balances ++
              [(mint, { balance with is_active := true, asset_shares := asset_shares })] }

/-- `MarginfiAccountWithBanks::borrow` from `src/state.rs`, verbatim: on the
existing-balance path the source assigns
`balance.asset_shares = balance.liability_shares + liability_shares`, and on
the create path it assigns `balance.liabilities_weight = liability_shares`. -/
def MarginfiAccountWithBanks.borrow (self : MarginfiAccountWithBanks)
    (amount : ℚ) (mint : Pubkey) : Option MarginfiAccountWithBanks :=
  match find_bank_by_mint self.banks mint with
  | none => none
  | some (bank_address, bank) =>
    if bank.liability_share_value = 0 then none
    else
      let liability_shares := amount / bank.liability_share_value
      if has_balance_for_mint self.balances mint then
        some { self with
          balances :=
            update_balance_for_mint
              (fun balance =>
                { balance with
                  asset_shares := balance.liability_shares + liability_shares })
              self.balances mint }
      else
        let balance := MarginfiAccountBalance.new_empty bank_address bank
        some { self with
          balances :=
            self.balances ++
              [(mint,
                { balance with
                  is_active := true, liabilities_weight := liability_shares })] }

/-- Tail of `MarginfiAccountWithBanks::get_total_weighted_amount`: fold over
the balances, looking up each balance's bank by mint and its oracle, summing
assets with `+` and combining liabilities with `*` exactly as the source
assignment `total_liabilities = total_liabilities * liabilities` does. -/
def MarginfiAccountWithBanks.get_total_weighted_amount_go
    (self : MarginfiAccountWithBanks) (oracles_state : OraclesState) :
    List (Pubkey × MarginfiAccountBalance) → ℚ → ℚ → Option (ℚ × ℚ)
  | [], total_assets, total_liabilities => some (total_assets, total_liabilities)
  | (mint, balance) :: rest, total_assets, total_liabilities =>
    match find_bank_by_mint self.banks mint with
    | none => none
    | some (_, bank) =>
      match oracles_state.get_oracle bank.oracle_setup bank.oracle_address with
      | none => none
      | some oracle =>
        match balance.get_weighted_amounts bank oracle with
        | none => none
        | some (assets, liabilities) =>
          self.get_total_weighted_amount_go oracles_state rest
            (total_assets + assets) (total_liabilities * liabilities)

/-- `MarginfiAccountWithBanks::get_total_weighted_amount`: both accumulators
start at `I80F48::ZERO`. -/
def MarginfiAccountWithBanks.get_total_weighted_amount
    (self : MarginfiAccountWithBanks) (oracles_state : OraclesState) :
    Option (ℚ × ℚ) :=
  self.get_total_weighted_amount_go oracles_state self.balances 0 0

/-- Unit Pyth feed: price 1, confidence 0, exponent 0, so the price range is
`(1, 1)`. -/
def pythFeedUnit : PythPriceFeed :=
  { last_update_slot := 0, price := { price := 1, conf := 0, expo := 0 } }

/-- Bank at address 3 for mint 9 (C1 failing input): unit weights and share
values, no deposit cap, Pyth oracle at address 7. -/
def bankMint9 : MarginfiBank :=
  { mint := 9, mint_decimals := 0, total_asset_value_init_limit := 0
    oracle_setup := OracleSetup.PythEma, oracle_address := 7
    asset_weight_init := 1, liability_weight_init := 1
    asset_share_value := 1, liability_share_value := 1
    total_asset_shares := 0, total_liability_shares := 0
    optimal_utilization_rate := 0, plateau_interest_rate := 0
    max_interest_rate := 0 }

/-- Bank at address 4 for mint 11 (C1 failing input), Pyth oracle at
address 8. -/
def bankMint11 : MarginfiBank :=
  { bankMint9 with mint := 11, oracle_address := 8 }

/-- Active balance on mint 9: 3 asset shares, 5 liability shares, unit
weights. -/
def balanceMint9 : MarginfiAccountBalance :=
  { is_active := true, bank_address := 3, asset_shares := 3
    liability_shares := 5, asset_weight := 1, liabilities_weight := 1 }

/-- Active balance on mint 11: 2 asset shares, 7 liability shares, unit
weights. -/
def balanceMint11 : MarginfiAccountBalance :=
  { is_active := true, bank_address := 4, asset_shares := 2
    liability_shares := 7, asset_weight := 1, liabilities_weight := 1 }

/-- C1 failing input: two active balances, every bank resolvable, every
oracle present. -/
def accountC1 : MarginfiAccountWithBanks :=
  { balances := [(9, balanceMint9), (11, balanceMint11)]
    banks := [(3, bankMint9), (4, bankMint11)] }

/-- Oracle cache holding the unit Pyth feed for both oracle addresses of the
C1 failing input. -/
def oraclesC1 : OraclesState :=
  { pyth_oracles := [(7, pythFeedUnit), (8, pythFeedUnit)]
    switchboard_oracles := [] }

/-- C1: evaluation at the failing input.  Every balance of `accountC1`
resolves its bank and every bank's oracle is present; the per-balance weighted
values are `(3·10^6, 5·10^6)` and `(2·10^6, 7·10^6)`, so summation by addition
would give total liabilities `12·10^6` — but `get_total_weighted_amount`
combines liabilities with `*` starting from `0` and returns `0` (the assets
side is summed by addition and is correct). -/
theorem get_total_weighted_amount_multiplies_liabilities :
    balanceMint9.get_weighted_amounts bankMint9 (PriceFeed.pyth pythFeedUnit) =
        some (3000000, 5000000) ∧
    balanceMint11.get_weighted_amounts bankMint11 (PriceFeed.pyth pythFeedUnit) =
        some (2000000, 7000000) ∧
    accountC1.get_total_weighted_amount oraclesC1 = some (5000000, 0) := by
  have h9 : balanceMint9.get_weighted_amounts bankMint9
      (PriceFeed.pyth pythFeedUnit) = some (3000000, 5000000) := by
    simp [MarginfiAccountBalance.get_weighted_amounts, balanceMint9, bankMint9,
      PriceFeed.get_price_range, PythPriceFeed.get_price_range, pythFeedUnit,
      PythPriceFeed.get_price, PythPriceFeed.get_confidence_interval,
      pyth_price_components_to_i80f48, MarginfiAccountBalance.get_amounts,
      calc_scaled_amount, EXP_10_I80F48, CONF_INTERVAL_MULTIPLE]
    norm_num
  have h11 : balanceMint11.get_weighted_amounts bankMint11
      (PriceFeed.pyth pythFeedUnit) = some (2000000, 7000000) := by
    simp [MarginfiAccountBalance.get_weighted_amounts, balanceMint11,
      bankMint11, bankMint9, PriceFeed.get_price_range,
      PythPriceFeed.get_price_range, pythFeedUnit, PythPriceFeed.get_price,
      PythPriceFeed.get_confidence_interval, pyth_price_components_to_i80f48,
      MarginfiAccountBalance.get_amounts, calc_scaled_amount, EXP_10_I80F48,
      CONF_INTERVAL_MULTIPLE]
    norm_num
  refine ⟨h9, h11, ?_⟩
  have hb9 : find_bank_by_mint accountC1.banks 9 = some (3, bankMint9) := by
    simp [accountC1, find_bank_by_mint, bankMint9, bankMint11]
  have hb11 : find_bank_by_mint accountC1.banks 11 = some (4, bankMint11) := by
    simp [accountC1, find_bank_by_mint, bankMint9, bankMint11]
  have ho9 : oraclesC1.get_oracle bankMint9.oracle_setup bankMint9.oracle_address =
      some (PriceFeed.pyth pythFeedUnit) := by
    simp [oraclesC1, OraclesState.get_oracle, bankMint9, find_by_key]
  have ho11 : oraclesC1.get_oracle bankMint11.oracle_setup bankMint11.oracle_address =
      some (PriceFeed.pyth pythFeedUnit) := by
    simp [oraclesC1, OraclesState.get_oracle, bankMint11, bankMint9, find_by_key]
  show accountC1.get_total_weighted_amount_go oraclesC1 accountC1.balances 0 0 =
    some (5000000, 0)
  rw [show accountC1.balances = [(9, balanceMint9), (11, balanceMint11)] from rfl]
  simp only [MarginfiAccountWithBanks.get_total_weighted_amount_go, hb9, ho9, h9,
    hb11, ho11, h11]
  norm_num

/-- Bank used for the C2 failing input: mint 9 at bank address 3, liability
share value 1, configured liability weight 2. -/
def bankBorrow : MarginfiBank :=
  { bankMint9 with liability_weight_init := 2 }

/-- C2 failing input, create path: account holding `bankBorrow` and no
balances. -/
def accountNoBalance : MarginfiAccountWithBanks :=
  { balances := [], banks := [(3, bankBorrow)] }

/-- Existing balance on mint 9 for the C2 update path: 1 asset share, 2
liability shares. -/
def balanceExisting : MarginfiAccountBalance :=
  { is_active := true, bank_address := 3, asset_shares := 1
    liability_shares := 2, asset_weight := 1, liabilities_weight := 2 }

/-- C2 failing input, update path: same account with the existing balance. -/
def accountWithBalance : MarginfiAccountWithBanks :=
  { balances := [(9, balanceExisting)], banks := [(3, bankBorrow)] }

/-- Balance produced by the create path of `borrow(5, mint 9)`: the converted
5 shares land in `liabilities_weight`, not in `liability_shares`. -/
def balanceAfterCreatePath : MarginfiAccountBalance :=
  { is_active := true, bank_address := 3, asset_shares := 0
    liability_shares := 0, asset_weight := 1, liabilities_weight := 5 }

/-- Balance produced by the update path of `borrow(4, mint 9)` on
`balanceExisting`: `liability_shares + 4 = 6` lands in `asset_shares`. -/
def balanceAfterUpdatePath : MarginfiAccountBalance :=
  { is_active := true, bank_address := 3, asset_shares := 6
    liability_shares := 2, asset_weight := 1, liabilities_weight := 2 }

/-- C2: evaluation at the failing inputs.  `borrow(5, mint 9)` with liability
share value 1 should add 5 liability shares; instead, on the create path the
code leaves `liability_shares` at 0 and stores the 5 converted shares in the
`liabilities_weight` field (clobbering the configured weight 2), and on the
existing-balance path `borrow(4, mint 9)` stores
`liability_shares + 4 = 6` into `asset_shares`, leaving `liability_shares`
unchanged at 2. -/
theorem borrow_misassigns_fields :
    accountNoBalance.borrow 5 9 =
      some { balances := [(9, balanceAfterCreatePath)], banks := [(3, bankBorrow)] } ∧
    accountWithBalance.borrow 4 9 =
      some { balances := [(9, balanceAfterUpdatePath)], banks := [(3, bankBorrow)] } := by
  constructor
  · simp [MarginfiAccountWithBanks.borrow, accountNoBalance, find_bank_by_mint,
      bankBorrow, bankMint9, has_balance_for_mint,
      MarginfiAccountBalance.new_empty, balanceAfterCreatePath]
  · simp [MarginfiAccountWithBanks.borrow, accountWithBalance, find_bank_by_mint,
      bankBorrow, bankMint9, has_balance_for_mint, update_balance_for_mint,
      balanceExisting, balanceAfterUpdatePath]
    norm_num

/-- `TransactionResult` from `src/utils/transaction.rs`.  Signatures, status
metadata and on-chain error payloads are opaque to the control flow and are
modelled as naturals. -/
inductive TransactionResult where
  | Success (signature : ℕ) (meta : ℕ)
  | Error (signature : ℕ) (e : ℕ)
  | Timeout (signature : ℕ)
  deriving DecidableEq

/-- The engine errors the pipeline can surface (`crate::Error`): a propagated
RPC/transport error, or `Error::TransactionError` for an on-chain failure or
missing metadata. -/
inductive PipelineError where
  | RpcError (e : ℕ)
  | TransactionError
  deriving DecidableEq

/-- One response of `get_transaction_with_config` inside the confirmation
poll loop of `send_and_confirm_transaction`. -/
inductive PollResponse where
  | errSerdeJson
  | errOther (e : ℕ)
  | okNoMeta
  | okMeta (err : Option ℕ) (meta : ℕ)
  deriving DecidableEq

/-- A poll response the loop can always digest without propagating an engine
error: a swallowed decode error or a returned transaction with metadata. -/
def PollResponse.benign : PollResponse → Prop := fun r =>
  r = PollResponse.errSerdeJson ∨ ∃ err meta, r = PollResponse.okMeta err meta

/-- `TX_VALIDITY_DURATION` (seconds) from `src/utils/transaction.rs`. -/
def TX_VALIDITY_DURATION : ℕ := 40

/-- `POLL_TIMEOUT` (seconds) from `src/utils/transaction.rs`. -/
def POLL_TIMEOUT : ℕ := 2

/-- The confirmation poll loop of `send_and_confirm_transaction`, indexed by
the iteration count `i`: each iteration sleeps `POLL_TIMEOUT` seconds before
polling, so at the top of iteration `i` the elapsed time is
`POLL_TIMEOUT * i`; the loop breaks with `Timeout` once it exceeds
`TX_VALIDITY_DURATION`.  Serde errors are swallowed and polling continues,
other client errors propagate, a missing meta is `Error::TransactionError`,
and a meta decides between the `Error` and `Success` terminal results. -/
def send_and_confirm_go (signature : ℕ) (poll : ℕ → PollResponse) (i : ℕ) :
    Except PipelineError TransactionResult :=
  if h : TX_VALIDITY_DURATION < POLL_TIMEOUT * i then
    Except.ok (TransactionResult.Timeout signature)
  else
    match poll i with
    | PollResponse.errSerdeJson => send_and_confirm_go signature poll (i + 1)
    | PollResponse.errOther e => Except.error (PipelineError.RpcError e)
    | PollResponse.okNoMeta => Except.error PipelineError.TransactionError
    | PollResponse.okMeta (some e) _ =>
      Except.ok (TransactionResult.Error signature e)
    | PollResponse.okMeta none meta =>
      Except.ok (TransactionResult.Success signature meta)
termination_by TX_VALIDITY_DURATION / POLL_TIMEOUT + 1 - i
decreasing_by
  simp only [TX_VALIDITY_DURATION, POLL_TIMEOUT] at h ⊢
  omega

/-- `send_and_confirm_transaction` from `src/utils/transaction.rs`: submit
(obtaining a signature), then poll from iteration 0. -/
def send_and_confirm_transaction (signature : ℕ) (poll : ℕ → PollResponse) :
    Except PipelineError TransactionResult :=
  send_and_confirm_go signature poll 0

/-- The retry loop of `force_send_instructions` from `src/bot.rs`, abstracted
over the outcome of each attempt (`attempt n` is what
`send_and_confirm_transaction` returns when `retries = n`).  The source loop
is unbounded; `fuel` bounds the number of attempts we inspect, with `none`
meaning the loop is still running after `fuel` attempts. -/
def force_send_go
    (attempt : ℕ → Except PipelineError TransactionResult) :
    ℕ → ℕ → Option (Except PipelineError ℕ)
  | _, 0 => none
  | retries, fuel + 1 =>
    match attempt retries with
    | Except.error e => some (Except.error e)
    | Except.ok (TransactionResult.Success _ meta) => some (Except.ok meta)
    | Except.ok (TransactionResult.Error _ _) =>
      some (Except.error PipelineError.TransactionError)
    | Except.ok (TransactionResult.Timeout _) =>
      force_send_go attempt (retries + 1) fuel

/-- `force_send_instructions`: the retry loop started at `retries = 0`. -/
def force_send_instructions
    (attempt : ℕ → Except PipelineError TransactionResult) (fuel : ℕ) :
    Option (Except PipelineError ℕ) :=
  force_send_go attempt 0 fuel

/-- The lookup tables compiled into the transaction submitted at attempt `n`
(`n` is the value of `retries` at submission).  Before the loop the
transaction is built with the provided tables (`alts`); at the top of every
iteration with even `retries` it is rebuilt against an empty table slice
(`&[]`), and odd iterations reuse the previous transaction unchanged. -/
def tx_alts_for_attempt (alts : List ℕ) : ℕ → List ℕ
  | 0 => if 0 % 2 = 0 then [] else alts
  | n + 1 => if (n + 1) % 2 = 0 then [] else tx_alts_for_attempt alts n

/-- Number of `build_signed_transaction` calls performed up to and including
the submission of attempt `n`; the pre-loop build with the provided tables
counts as 1, and the rebuild at the top of each even-`retries` iteration adds
one. -/
def builds_before_attempt : ℕ → ℕ
  | 0 => 2
  | n + 1 =>
    if (n + 1) % 2 = 0 then builds_before_attempt n + 1
    else builds_before_attempt n

/-- C4: the general fact and the evaluation at the failing input.  The loop in
`force_send_instructions` rebuilds the transaction *without* lookup tables at
the top of every even-`retries` iteration — including the very first
(`retries = 0`), which discards the pre-loop build that carried the provided
tables — and odd iterations reuse the previous (table-free) transaction, so
no submitted attempt ever carries lookup-table compression.  In particular at
attempt 0 (even) the table list `[5]` is available yet the submitted
transaction is built with none. -/
theorem force_send_never_submits_lookup_tables :
    (∀ (alts : List ℕ) (n : ℕ), tx_alts_for_attempt alts n = []) ∧
    tx_alts_for_attempt [5] 0 = [] ∧ ([5] : List ℕ) ≠ [] := by
  refine ⟨?_, by simp [tx_alts_for_attempt], by simp⟩
  intro alts n
  induction n with
  | zero => simp [tx_alts_for_attempt]
  | succ n ih =>
    by_cases h : (n + 1) % 2 = 0 <;> simp [tx_alts_for_attempt, h, ih]

/-- Outcome trace for the C7 counterexample: attempt 0 times out, every later
attempt succeeds with metadata 7. -/
def attemptsTimeoutThenSuccess : ℕ → Except PipelineError TransactionResult
  | 0 => Except.ok (TransactionResult.Timeout 0)
  | _ + 1 => Except.ok (TransactionResult.Success 0 7)

/-- C7 counterexample: after the timed-out attempt 0 the loop does make a next
attempt (which here succeeds), but that attempt is *not* built from a fresh
transaction — `retries = 1` is odd, so no rebuild happens and the build count
before attempt 1 equals the build count before attempt 0, refuting "a
TimedOut outcome triggers the next retry attempt with a rebuilt
transaction". -/
theorem timeout_retry_without_rebuild :
    force_send_instructions attemptsTimeoutThenSuccess 2 = some (Except.ok 7) ∧
    builds_before_attempt 1 = builds_before_attempt 0 := by
  constructor
  · rfl
  · rfl

theorem send_and_confirm_go_total (signature : ℕ) (poll : ℕ → PollResponse)
    (hb : ∀ i, PollResponse.benign (poll i)) :
    ∀ k i, 21 ≤ i + k → ∃ r, send_and_confirm_go signature poll i = Except.ok r := by
  intro k
  induction k with
  | zero =>
    intro i hi
    unfold send_and_confirm_go
    rw [dif_pos (by simp only [TX_VALIDITY_DURATION, POLL_TIMEOUT]; omega)]
    exact ⟨_, rfl⟩
  | succ k ih =>
    intro i hi
    unfold send_and_confirm_go
    by_cases h : TX_VALIDITY_DURATION < POLL_TIMEOUT * i
    · rw [dif_pos h]
      exact ⟨_, rfl⟩
    · rw [dif_neg h]
      rcases hb i with hserde | ⟨err, meta, hok⟩
      · rw [hserde]
        exact ih (i + 1) (by omega)
      · rw [hok]
        cases err with
        | none => exact ⟨_, rfl⟩
        | some e => exact ⟨_, rfl⟩

/-- C7 as amended: (1) with benign poll responses one submit-and-confirm cycle
always terminates with one of the three `TransactionResult` outcomes (the
constructors `Success`/`Error`/`Timeout` are mutually exclusive by
construction); (2) an attempt whose cycle ends in the on-chain `Error` result
makes the retry loop return `Error::TransactionError` at once, for every
remaining fuel — so those instructions are never resubmitted; (3) an attempt
that times out hands control to the next attempt (`retries + 1`); (4) the
transaction is rebuilt exactly before even-numbered attempts: no rebuild
between an even attempt and the following odd attempt, one rebuild before the
next even attempt. -/
theorem execution_pipeline_outcomes :
    (∀ (signature : ℕ) (poll : ℕ → PollResponse),
      (∀ i, PollResponse.benign (poll i)) →
        ∃ r, send_and_confirm_transaction signature poll = Except.ok r) ∧
    (∀ (attempt : ℕ → Except PipelineError TransactionResult) (r s e fuel : ℕ),
      attempt r = Except.ok (TransactionResult.Error s e) →
        force_send_go attempt r (fuel + 1) =
          some (Except.error PipelineError.TransactionError)) ∧
    (∀ (attempt : ℕ → Except PipelineError TransactionResult) (r s fuel : ℕ),
      attempt r = Except.ok (TransactionResult.Timeout s) →
        force_send_go attempt r (fuel + 1) = force_send_go attempt (r + 1) fuel) ∧
    (∀ k : ℕ,
      builds_before_attempt (2 * k + 1) = builds_before_attempt (2 * k) ∧
      builds_before_attempt (2 * k + 2) = builds_before_attempt (2 * k + 1) + 1) := by
  refine ⟨?_, ?_, ?_, ?_⟩
  · intro signature poll hb
    exact send_and_confirm_go_total signature poll hb 21 0 (by omega)
  · intro attempt r s e fuel h
    simp [force_send_go, h]
  · intro attempt r s fuel h
    simp [force_send_go, h]
  · intro k
    have h1 : ¬ ((2 * k + 1) % 2 = 0) := by omega
    have h2 : (2 * k + 2) % 2 = 0 := by omega
    constructor
    · simp [builds_before_attempt, h1]
    · have : 2 * k + 2 = (2 * k + 1) + 1 := by omega
      rw [this]
      simp [builds_before_attempt, h2, this]

/-- Poll trace that immediately reports success with metadata 3. -/
def pollAlwaysSuccess : ℕ → PollResponse := fun _ => PollResponse.okMeta none 3

/-- Attempt trace whose every cycle ends in the on-chain error result. -/
def attemptsAlwaysError : ℕ → Except PipelineError TransactionResult :=
  fun _ => Except.ok (TransactionResult.Error 0 4)

/-- C7 witness: the pipeline theorem instantiated at concrete traces — a
benign always-successful poll, an always-erroring attempt at fuel 1, the
timeout step on the concrete timeout-then-success trace, and the build parity
at `k = 0`. -/
theorem execution_pipeline_outcomes_witness :
    (∃ r, send_and_confirm_transaction 0 pollAlwaysSuccess = Except.ok r) ∧
    force_send_go attemptsAlwaysError 0 1 =
      some (Except.error PipelineError.TransactionError) ∧
    force_send_go attemptsTimeoutThenSuccess 0 2 =
      force_send_go attemptsTimeoutThenSuccess 1 1 ∧
    builds_before_attempt 1 = builds_before_attempt 0 ∧
    builds_before_attempt 2 = builds_before_attempt 1 + 1 := by
  refine ⟨?_, ?_, ?_, ?_, ?_⟩
  · exact execution_pipeline_outcomes.1 0 pollAlwaysSuccess
      (fun i => Or.inr ⟨none, 3, rfl⟩)
  · exact execution_pipeline_outcomes.2.1 attemptsAlwaysError 0 0 4 0 rfl
  · exact execution_pipeline_outcomes.2.2.1 attemptsTimeoutThenSuccess 0 0 1 rfl
  · exact (execution_pipeline_outcomes.2.2.2 0).1
  · exact (execution_pipeline_outcomes.2.2.2 0).2
